import Mathlib

/-
Verification of the line-delimited JSON-RPC tool server (src/xjg.py,
with src/xavier.py and src/xjg_backup.py as near-duplicates).
The embedding models, faithfully to the Python source:
  - JSON values (numbers as integers; floats do not occur in the claims),
  - dictionary access semantics of `dict.get` (absent key and JSON null
    both read back as Python None), including the AttributeError raised
    when `.get` is invoked on a non-dict,
  - the dispatcher of the main loop (methods initialize, tools/list,
    tools/call, unknown), the per-tool branches, and the outer exception
    handling of the loop (json.JSONDecodeError is skipped, any other
    exception escapes the inner handlers and ends the server),
  - the network fetch of the weather tool through an explicit environment
    assigning an outcome to each requested city, with the fetch recorded
    as an observable effect,
  - end-of-stream handling: exit before the first initialize, idle after.
Diagnostic stderr output, signals and the real wall clock are not modelled;
the JSON-RPC envelope constant field jsonrpc "2.0" is carried implicitly by
the output message type.
-/

namespace MCPServer

/-- JSON values as decoded by json.loads.  Numbers are modelled as integers
(no claim involves a fractional literal); object fields are an association
list with distinct keys, as produced by json.loads. -/
inductive Json where
  | null
  | bool (b : Bool)
  | num (n : Int)
  | str (s : String)
  | arr (elems : List Json)
  | obj (fields : List (String × Json))

/-- Python exceptions that the modelled code can raise. -/
inductive PyError where
  | attributeError
  | typeError
  | keyError (k : String)
  | indexError
  | valueError
  | urlError (e : String)
  | jsonDecodeError (e : String)

/-- First binding of a key in an association list (keys are distinct, so
this is dict lookup). -/
def lookupField : List (String × Json) → String → Option Json
  | [], _ => none
  | (k, v) :: rest, key => if k = key then some v else lookupField rest key

/-- Python collapses a JSON null value to None, so `req.get("id") is not
None` is false both when the key is absent and when it is null. -/
def normId : Option Json → Option Json
  | some .null => none
  | x => x

/-- Single-quote character as a string (used by the Python repr of strings
and of KeyError payloads). -/
def sq : String := "\x27"

mutual
/-- Python repr() of a JSON-decoded value (string escaping inside repr is
not modelled; no claim depends on it). -/
def pyRepr : Json → String
  | .null => "None"
  | .bool true => "True"
  | .bool false => "False"
  | .num n => toString n
  | .str s => sq ++ s ++ sq
  | .arr xs => "[" ++ pyReprList xs ++ "]"
  | .obj fs => "\x7b" ++ pyReprFields fs ++ "\x7d"

/-- Comma-separated reprs of list elements. -/
def pyReprList : List Json → String
  | [] => ""
  | [j] => pyRepr j
  | j :: rest => pyRepr j ++ ", " ++ pyReprList rest

/-- Comma-separated reprs of dict entries. -/
def pyReprFields : List (String × Json) → String
  | [] => ""
  | [(k, v)] => sq ++ k ++ sq ++ ": " ++ pyRepr v
  | (k, v) :: rest => sq ++ k ++ sq ++ ": " ++ pyRepr v ++ ", " ++ pyReprFields rest
end

/-- Python str() of a JSON-decoded value, as used by f-string interpolation. -/
def pyStr : Json → String
  | .str s => s
  | j => pyRepr j

/-- Python str() of a `dict.get` result, where an absent key reads as None. -/
def pyStrOpt : Option Json → String
  | none => "None"
  | some j => pyStr j

/-- Approximate rendering of Python str(e) for a caught exception; the
claims never depend on the exact wording. -/
def pyErrStr : PyError → String
  | .attributeError => "AttributeError"
  | .typeError => "TypeError"
  | .keyError k => sq ++ k ++ sq
  | .indexError => "list index out of range"
  | .valueError => "ValueError"
  | .urlError e => e
  | .jsonDecodeError e => e

/-- Python text.strip(): drop leading and trailing whitespace. -/
def pyStrip (s : String) : String :=
  String.mk (((s.data.dropWhile Char.isWhitespace).reverse.dropWhile Char.isWhitespace).reverse)

/-- Python text.split() with no separator: maximal nonempty runs of
non-whitespace characters. -/
def splitWsAux : List Char → List Char → List String
  | [], acc => if acc.isEmpty then [] else [String.mk acc.reverse]
  | c :: rest, acc =>
      if c.isWhitespace then
        if acc.isEmpty then splitWsAux rest []
        else String.mk acc.reverse :: splitWsAux rest []
      else splitWsAux rest (c :: acc)

/-- Python text.split() with no separator. -/
def pySplit (s : String) : List String := splitWsAux s.data []

/-- Python text.splitlines() over the terminators LF, CRLF and CR (the
remaining unicode terminators do not occur in any claim). -/
def splitlinesAux : List Char → List Char → List String
  | [], acc => if acc.isEmpty then [] else [String.mk acc.reverse]
  | '\n' :: rest, acc => String.mk acc.reverse :: splitlinesAux rest []
  | '\r' :: '\n' :: rest, acc => String.mk acc.reverse :: splitlinesAux rest []
  | '\r' :: rest, acc => String.mk acc.reverse :: splitlinesAux rest []
  | c :: rest, acc => splitlinesAux rest (c :: acc)

/-- Python text.splitlines(). -/
def pySplitlines (s : String) : List String := splitlinesAux s.data []

/-- Python text.replace(" ", ""): remove every space character. -/
def removeSpaces (s : String) : String :=
  String.mk (s.data.filter (fun c => c != ' '))

/-- xjg.py line 219: `len(text.split()) if text.strip() else 0`. -/
def wcWords (text : String) : Nat :=
  if pyStrip text ≠ "" then (pySplit text).length else 0

/-- xjg.py line 220: `len(text)`. -/
def wcChars (text : String) : Nat := text.length

/-- xjg.py line 221: `len(text.replace(" ", ""))`. -/
def wcCharsNoSpaces (text : String) : Nat := (removeSpaces text).length

/-- xjg.py line 222: `len(text.splitlines()) if text else 0`. -/
def wcLines (text : String) : Nat :=
  if text ≠ "" then (pySplitlines text).length else 0

/-- The word_count report text, xjg.py lines 225-229. -/
def wordCountText (text : String) : String :=
  "Text Analysis:\n📝 Words: " ++ toString (wcWords text) ++
  "\n🔤 Characters: " ++ toString (wcChars text) ++
  "\n🔤 Characters (no spaces): " ++ toString (wcCharsNoSpaces text) ++
  "\n📄 Lines: " ++ toString (wcLines text)

/-- Python text[::-1]: strings and lists reverse, anything else raises
TypeError. -/
def pyReverse : Json → Except PyError Json
  | .str s => .ok (.str (String.mk s.data.reverse))
  | .arr xs => .ok (.arr xs.reverse)
  | _ => .error .typeError

/-- Outcome of the HTTP fetch `urlopen("https://wttr.in/{city}?format=j1")`
followed by reading and json-decoding the body: the request can raise
URLError, return a non-200 status, return a body that is not JSON, or
return a decoded JSON document. -/
inductive Fetch where
  | urlError (e : String)
  | badStatus
  | parseError (e : String)
  | ok (doc : Json)

/-- Observable side effects of message handling: the weather tool's
network fetch, keyed by the requested city. -/
inductive Effect where
  | fetch (city : String)

/-- One line written to stdout: a success response, an error response, or
a server-initiated notification.  The constant envelope field
jsonrpc "2.0" is implicit in all three. -/
inductive RpcOut where
  | result (id : Json) (body : Json)
  | err (id : Json) (code : Int) (msg : String)
  | notif (method : String) (params : Json)

/-- Static description of one tool: name, description text, schema
properties and required fields (xjg.py registers echo, reverse,
word_count and weather with identical schema text in the declaration at
lines 13-64 and the listing at lines 131-190). -/
structure ToolSpec where
  name : String
  description : String
  schemaProps : List (String × Json)
  required : List String

/-- The JSON-Schema-like input schema of one tool. -/
def schemaOf (t : ToolSpec) : Json :=
  .obj [("type", .str "object"),
        ("properties", .obj t.schemaProps),
        ("required", .arr (t.required.map .str))]

/-- The four tools of xjg.py, in source order. -/
def toolsRegistry : List ToolSpec :=
  [⟨"echo", "Echo back text",
    [("message", .obj [("type", .str "string")])], ["message"]⟩,
   ⟨"reverse", "Reverse the order of characters in text",
    [("text", .obj [("type", .str "string")])], ["text"]⟩,
   ⟨"word_count", "Count words, characters, and lines in text",
    [("text", .obj [("type", .str "string")])], ["text"]⟩,
   ⟨"weather", "Get current weather for a city (defaults to Frisco, Colorado)",
    [("city", .obj [("type", .str "string"),
                    ("description", .str "City name (e.g., \x27Las Vegas\x27 or \x27Denver\x27)")])],
    []⟩]

/-- Descriptor of one tool as produced by the tools/list branch. -/
def toolDescriptor (t : ToolSpec) : Json :=
  .obj [("name", .str t.name),
        ("description", .str t.description),
        ("inputSchema", schemaOf t)]

/-- The result payload of the tools/list branch, xjg.py lines 136-186. -/
def toolsListResult : Json :=
  .obj [("tools", .arr (toolsRegistry.map toolDescriptor))]

/-- Entry of one tool in the declaration notification payload. -/
def declEntry (t : ToolSpec) : String × Json :=
  (t.name, .obj [("description", .str t.description),
                 ("input_schema", schemaOf t)])

/-- The params payload of the tools/declare notification, xjg.py
lines 14-64. -/
def declarationParams : Json :=
  .obj [("tools", .obj (toolsRegistry.map declEntry))]

/-- The result payload of the initialize response, xjg.py lines 113-122. -/
def initResult : Json :=
  .obj [("protocolVersion", .str "2024-11-05"),
        ("capabilities", .obj [("tools", .obj [])]),
        ("serverInfo", .obj [("name", .str "frisco-weather-server"),
                             ("version", .str "1.0.0")])]

/-- Wrap a tool's text payload as `content: [(type text, text ...)]`. -/
def contentText (s : String) : Json :=
  .obj [("content", .arr [.obj [("type", .str "text"), ("text", .str s)]])]

/-- Fields of the weather report, read from the decoded document in the
order the f-string of xjg.py lines 252-257 evaluates them. -/
structure WeatherFields where
  tempF : String
  tempC : String
  cond : String
  wind : String
  humidity : String
  visibility : String

/-- Python d[key]: KeyError when the key is missing, TypeError when the
value is not a dict. -/
def pyItemStr : Json → String → Except PyError Json
  | .obj fs, key =>
      match lookupField fs key with
      | some v => .ok v
      | none => .error (.keyError key)
  | _, _ => .error .typeError

/-- Python x[i] for a non-negative literal index: lists and strings index,
out of range raises IndexError, other values raise TypeError. -/
def pyItemNat : Json → Nat → Except PyError Json
  | .arr xs, i =>
      match xs.get? i with
      | some v => .ok v
      | none => .error .indexError
  | .str s, i =>
      match s.data.get? i with
      | some c => .ok (.str (String.singleton c))
      | none => .error .indexError
  | _, _ => .error .typeError

/-- Extraction of the six interpolated fields from the decoded weather
document: `current = weather_data["current_condition"][0]` and then the
f-string accesses of xjg.py lines 249-257, in evaluation order. -/
def weatherExtract (doc : Json) : Except PyError WeatherFields := do
  let cc ← pyItemStr doc "current_condition"
  let current ← pyItemNat cc 0
  let tempF ← pyItemStr current "temp_F"
  let tempC ← pyItemStr current "temp_C"
  let wd ← pyItemStr current "weatherDesc"
  let wd0 ← pyItemNat wd 0
  let cond ← pyItemStr wd0 "value"
  let wind ← pyItemStr current "windspeedMiles"
  let hum ← pyItemStr current "humidity"
  let vis ← pyItemStr current "visibility"
  pure ⟨pyStr tempF, pyStr tempC, pyStr cond, pyStr wind, pyStr hum, pyStr vis⟩

/-- The formatted weather report of xjg.py lines 252-259. -/
def weatherReport (city : String) (f : WeatherFields) : String :=
  "🌤️ Weather for " ++ city ++ ":\n🌡️ Temperature: " ++ f.tempF ++ "°F (" ++
  f.tempC ++ "°C)\n🌤️ Condition: " ++ f.cond ++ "\n💨 Wind: " ++ f.wind ++
  " mph\n💧 Humidity: " ++ f.humidity ++ "%\n👁️ Visibility: " ++ f.visibility ++
  " miles\n\nPerfect for checking your hometown weather! 🏔️❄️"

/-- Text produced by the weather try-block for one fetch outcome.  The
URLError handler of xjg.py line 264 produces the network message; every
other exception inside the try (bad JSON body, missing keys, wrong
shapes) is caught by the generic handler of line 266. -/
def weatherFromFetch (city : String) : Fetch → String
  | .urlError e => "🌐 Network error getting weather: " ++ e
  | .badStatus => "❌ Sorry, couldn\x27t get weather for " ++ city ++ ". Try a different city name!"
  | .parseError e => "⚠️ Error processing weather data: " ++ e
  | .ok doc =>
      match weatherExtract doc with
      | .ok f => weatherReport city f
      | .error e => "⚠️ Error processing weather data: " ++ pyErrStr e

/-- The weather branch of xjg.py lines 238-267 given the city argument
value: the city extraction (`.get("city", default)`) cannot fault, and a
non-string city makes `urllib.parse.quote` — which runs INSIDE the try
— raise TypeError, caught by the generic handler before any fetch
happens; a string city is fetched (the fetch is the recorded effect)
and the outcome is rendered by the try-block.  This xjg.py branch
always produces a text, never an uncaught exception; the xavier.py
variant of the branch differs and is embedded as `xavierWeatherRun`. -/
def weatherCall (env : String → Fetch) (city : Json) : String × List Effect :=
  match city with
  | .str s => (weatherFromFetch s (env s), [Effect.fetch s])
  | _ => ("⚠️ Error processing weather data: " ++ pyErrStr PyError.typeError, [])

/-- The echo branch, xjg.py lines 196-204: the message argument defaults
to "" and is interpolated with str(). -/
def echoRun (init : Bool) (i : Json) (af : List (String × Json)) :
    Except PyError (Bool × List RpcOut × List Effect) :=
  .ok (init,
    [RpcOut.result i (contentText ("Echo: " ++ pyStr ((lookupField af "message").getD (.str ""))))],
    [])

/-- The reverse branch, xjg.py lines 205-214: `text[::-1]` raises
TypeError on values that do not slice. -/
def reverseRun (init : Bool) (i : Json) (af : List (String × Json)) :
    Except PyError (Bool × List RpcOut × List Effect) :=
  match pyReverse ((lookupField af "text").getD (.str "")) with
  | .ok rev => .ok (init, [RpcOut.result i (contentText ("Reversed: " ++ pyStr rev))], [])
  | .error e => .error e

/-- The word_count branch, xjg.py lines 215-237: `text.strip()` raises
AttributeError on a non-string. -/
def wordCountRun (init : Bool) (i : Json) (af : List (String × Json)) :
    Except PyError (Bool × List RpcOut × List Effect) :=
  match (lookupField af "text").getD (.str "") with
  | .str t => .ok (init, [RpcOut.result i (contentText (wordCountText t))], [])
  | _ => .error .attributeError

/-- The weather branch, xjg.py lines 238-275: always a successful text
result, with the fetch effect of `weatherCall`. -/
def weatherRun (env : String → Fetch) (init : Bool) (i : Json)
    (af : List (String × Json)) : Except PyError (Bool × List RpcOut × List Effect) :=
  .ok (init,
    [RpcOut.result i (contentText (weatherCall env ((lookupField af "city").getD (.str "Frisco, Colorado"))).1)],
    (weatherCall env ((lookupField af "city").getD (.str "Frisco, Colorado"))).2)

/-- The tools/call dispatch on the tool name for a request that carries an
id, xjg.py lines 194-287.  `pf` holds the fields of the params dict; each
branch re-reads `arguments` with default {} and raises AttributeError
when the present value is not a dict, exactly as the chained
`.get(...).get(...)` of the source does. -/
def toolDispatch (env : String → Fetch) (init : Bool) (i : Json)
    (pf : List (String × Json)) : Except PyError (Bool × List RpcOut × List Effect) :=
  match lookupField pf "name" with
  | some (.str n) =>
      if n = "echo" then
        match (lookupField pf "arguments").getD (.obj []) with
        | .obj af => echoRun init i af
        | _ => .error .attributeError
      else if n = "reverse" then
        match (lookupField pf "arguments").getD (.obj []) with
        | .obj af => reverseRun init i af
        | _ => .error .attributeError
      else if n = "word_count" then
        match (lookupField pf "arguments").getD (.obj []) with
        | .obj af => wordCountRun init i af
        | _ => .error .attributeError
      else if n = "weather" then
        match (lookupField pf "arguments").getD (.obj []) with
        | .obj af => weatherRun env init i af
        | _ => .error .attributeError
      else .ok (init, [RpcOut.err i (-32601) ("Unknown tool: " ++ n)], [])
  | nv => .ok (init, [RpcOut.err i (-32601) ("Unknown tool: " ++ pyStrOpt nv)], [])

/-- Handling of one decoded request dict, xjg.py lines 105-303: the method
dispatch (initialize, tools/list, tools/call, unknown), the id gate in
each branch, the lifecycle flag update and the tools/declare
notification of the initialize branch.  xavier.py lines 118-428 have
the same dispatch structure; the backup variant xjg_backup.py has no
tools/list branch and is embedded separately as `handleObjBackup`. -/
def handleObj (env : String → Fetch) (init : Bool) (fs : List (String × Json)) :
    Except PyError (Bool × List RpcOut × List Effect) :=
  match lookupField fs "method" with
  | some (.str m) =>
      if m = "initialize" then
        .ok (true,
          ((normId (lookupField fs "id")).elim [] (fun i => [RpcOut.result i initResult])) ++
            [RpcOut.notif "tools/declare" declarationParams],
          [])
      else if m = "tools/list" then
        match normId (lookupField fs "id") with
        | some i => .ok (init, [RpcOut.result i toolsListResult], [])
        | none => .ok (init, [], [])
      else if m = "tools/call" then
        match normId (lookupField fs "id") with
        | some i =>
            match (lookupField fs "params").getD (.obj []) with
            | .obj pf => toolDispatch env init i pf
            | _ => .error .attributeError
        | none => .ok (init, [], [])
      else
        match normId (lookupField fs "id") with
        | some i => .ok (init, [RpcOut.err i (-32601) ("Unknown method: " ++ m)], [])
        | none => .ok (init, [], [])
  | mv =>
      match normId (lookupField fs "id") with
      | some i => .ok (init, [RpcOut.err i (-32601) ("Unknown method: " ++ pyStrOpt mv)], [])
      | none => .ok (init, [], [])

/-- Handling of one decoded JSON value: `req.get("method")` on a non-dict
raises AttributeError (xjg.py line 105), which no inner handler catches. -/
def handleValue (env : String → Fetch) (init : Bool) : Json →
    Except PyError (Bool × List RpcOut × List Effect)
  | .obj fs => handleObj env init fs
  | _ => .error .attributeError

/-- Python truthiness of a JSON-decoded value: None, False, zero, the
empty string and empty containers are falsy. -/
def pyTruthy : Json → Bool
  | .null => false
  | .bool b => b
  | .num n => n != 0
  | .str s => s != ""
  | .arr xs => !xs.isEmpty
  | .obj fs => !fs.isEmpty

/-- Python len(): lists, strings and dicts have a length, other values
raise TypeError. -/
def pyLen : Json → Except PyError Nat
  | .arr xs => .ok xs.length
  | .str s => .ok s.length
  | .obj fs => .ok fs.length
  | _ => .error .typeError

/-- Python iteration `for h in x`: lists yield their elements, strings
yield one-character strings, dicts yield their keys; other values raise
TypeError. -/
def pyIter : Json → Except PyError (List Json)
  | .arr xs => .ok xs
  | .str s => .ok (s.data.map (fun c => .str (String.singleton c)))
  | .obj fs => .ok (fs.map (fun kv => .str kv.1))
  | _ => .error .typeError

/-- Value of a decimal digit run; none when a non-digit occurs. -/
def digitsValAux : List Char → Nat → Option Nat
  | [], acc => some acc
  | c :: rest, acc =>
      if c.isDigit then digitsValAux rest (acc * 10 + (c.toNat - 48)) else none

/-- Python int(string): whitespace stripped, optional sign, decimal
digits (digit-group underscores and non-decimal bases are not modelled;
no claim depends on them). -/
def parsePyInt (s : String) : Option Int :=
  match (pyStrip s).data with
  | [] => none
  | '-' :: ds =>
      match ds with
      | [] => none
      | _ => (digitsValAux ds 0).map (fun n => -(n : Int))
  | '+' :: ds =>
      match ds with
      | [] => none
      | _ => (digitsValAux ds 0).map (fun n => (n : Int))
  | ds => (digitsValAux ds 0).map (fun n => (n : Int))

/-- Python int(x): ints pass through, booleans become 0/1, strings are
parsed (ValueError on failure), other values raise TypeError. -/
def pyInt : Json → Except PyError Int
  | .num n => .ok n
  | .bool true => .ok 1
  | .bool false => .ok 0
  | .str s =>
      match parsePyInt s with
      | some n => .ok n
      | none => .error .valueError
  | _ => .error .typeError

/-- The city computation of xavier.py lines 268-272, which runs BEFORE
the try block: `city_arg = arguments.get("city")`; a falsy value
(absent, null, "", 0, False, empty containers) falls back to the
default without calling .strip(); a truthy string is stripped (a
whitespace-only string also falls back); a truthy non-string raises
AttributeError at `city_arg.strip()`, and since this is outside the
try, the exception is uncaught. -/
def xavierCityOf (af : List (String × Json)) : Except PyError String :=
  match lookupField af "city" with
  | none => .ok "Frisco, Colorado"
  | some v =>
      match v with
      | .str s => .ok (if pyStrip s = "" then "Frisco, Colorado" else pyStrip s)
      | _ => if pyTruthy v then .error .attributeError else .ok "Frisco, Colorado"

/-- Whether the city argument of an arguments dict is safe for
xavier.py's pre-try handling: absent, falsy, or a string. -/
def cityWellTyped (af : List (String × Json)) : Bool :=
  match lookupField af "city" with
  | none => true
  | some v =>
      match v with
      | .str _ => true
      | _ => !pyTruthy v

/-- The 200-status body of xavier.py lines 281-331: current conditions,
today and (when present) tomorrow from the weather array, the hourly
temperature pattern, the tomorrow summary, the location note, and the
final report with its field accesses in f-string order.  Every fault
here is raised inside the try and so reaches the except chain. -/
def xavierExtract (doc : Json) (city : String) : Except PyError String := do
  let cc ← pyItemStr doc "current_condition"
  let current ← pyItemNat cc 0
  let weather ← pyItemStr doc "weather"
  let todayW ← pyItemNat weather 0
  let wlen ← pyLen weather
  let tomorrowW ← if wlen > 1 then do
      let tw ← pyItemNat weather 1
      pure (some tw)
    else pure none
  let hourly ← match todayW with
    | .obj tf => Except.ok ((lookupField tf "hourly").getD (Json.arr []))
    | _ => Except.error PyError.attributeError
  let hlist ← pyIter hourly
  let temps ← hlist.mapM (fun h => do
    let tf ← pyItemStr h "tempF"
    pyInt tf)
  let pattern :=
    match temps with
    | [] => "Pattern data unavailable"
    | t :: ts =>
        let maxT := ts.foldl max t
        let minT := ts.foldl min t
        let range := maxT - minT
        if range > 20 then
          "Variable day: " ++ toString minT ++ "°F to " ++ toString maxT ++ "°F swing"
        else if range > 10 then
          "Moderate range: " ++ toString minT ++ "°F to " ++ toString maxT ++ "°F"
        else "Steady temps: around " ++ toString maxT ++ "°F"
  let tomorrowSummary ← match tomorrowW with
    | some tw =>
        if pyTruthy tw then do
          let tomMax ← pyItemStr tw "maxtempF"
          let tomMin ← pyItemStr tw "mintempF"
          let hourlyOpt ← match tw with
            | .obj tf => Except.ok ((lookupField tf "hourly").getD Json.null)
            | _ => Except.error PyError.attributeError
          let tomDesc ← if pyTruthy hourlyOpt then do
              let hv ← pyItemStr tw "hourly"
              let h0 ← pyItemNat hv 0
              let wd ← pyItemStr h0 "weatherDesc"
              let wd0 ← pyItemNat wd 0
              let v ← pyItemStr wd0 "value"
              pure (pyStr v)
            else pure "Unknown"
          pure (tomDesc ++ ", " ++ pyStr tomMin ++ "°F to " ++ pyStr tomMax ++ "°F")
        else pure "Forecast unavailable"
    | none => pure "Forecast unavailable"
  let locationNote :=
    if (String.toLower city).startsWith "frisco" then
      "Perfect for your Frisco mountain planning! 🏔️❄️"
    else "Weather info for your " ++ city ++ " travel planning! ✈️🌍"
  let tempF ← pyItemStr current "temp_F"
  let tempC ← pyItemStr current "temp_C"
  let wd ← pyItemStr current "weatherDesc"
  let wd0 ← pyItemNat wd 0
  let cond ← pyItemStr wd0 "value"
  let wind ← pyItemStr current "windspeedMiles"
  let winddir ← pyItemStr current "winddir16Point"
  let hum ← pyItemStr current "humidity"
  let vis ← pyItemStr current "visibility"
  let feels ← pyItemStr current "FeelsLikeF"
  pure ("🌤️ Weather for " ++ city ++ ":\n🌡️ Current: " ++ pyStr tempF ++ "°F (" ++
    pyStr tempC ++ "°C)\n🌤️ Condition: " ++ pyStr cond ++ "\n💨 Wind: " ++ pyStr wind ++
    " mph from " ++ pyStr winddir ++ "\n💧 Humidity: " ++ pyStr hum ++
    "%\n👁️ Visibility: " ++ pyStr vis ++ " miles\n🌡️ Feels like: " ++ pyStr feels ++
    "°F\n\n📈 Today" ++ sq ++ "s Pattern: " ++ pattern ++ "\n🔮 Tomorrow: " ++
    tomorrowSummary ++ "\n\n" ++ locationNote)

/-- The weather text of xavier.py lines 274-343 for a fetched city: the
except chain catches URLError (network message), json.JSONDecodeError
from the body parse (parse message), KeyError (missing-field message,
with str(KeyError) rendering the key quoted) and, last, any other
exception (generic message); a dict indexed by an int literal is
approximated as TypeError rather than KeyError, which only changes
which caught text is produced. -/
def xavierWeatherText (env : String → Fetch) (city : String) : String :=
  match env city with
  | .urlError e => "🌐 Network error getting weather for " ++ city ++ ": " ++ e
  | .badStatus =>
      "❌ Sorry, couldn\x27t get weather for " ++ city ++ ". Try a different city name or check spelling!"
  | .parseError _ => "⚠️ Error parsing weather data for " ++ city ++ ": Invalid response format"
  | .ok doc =>
      match xavierExtract doc city with
      | .ok txt => txt
      | .error (.keyError k) =>
          "⚠️ Incomplete weather data for " ++ city ++ ": Missing " ++ sq ++ k ++ sq
      | .error e => "⚠️ Error getting weather for " ++ city ++ ": " ++ pyErrStr e

/-- The weather branch of xavier.py lines 266-351, as invoked by xavier's
dispatcher (whose tools/call id gate at lines 220-221 is identical to
xjg.py's) for params.name "weather" with an arguments dict `af`: the
city computation runs outside the try and can raise an uncaught
AttributeError; once a city string is obtained, the fetch happens and
every fault inside the try is caught into a text result. -/
def xavierWeatherRun (env : String → Fetch) (init : Bool) (i : Json)
    (af : List (String × Json)) : Except PyError (Bool × List RpcOut × List Effect) :=
  match xavierCityOf af with
  | .error e => .error e
  | .ok city =>
      .ok (init, [RpcOut.result i (contentText (xavierWeatherText env city))],
        [Effect.fetch city])

/-- The result payload of the initialize response in the backup variant,
xjg_backup.py lines 82-91 (server name "xjg-server"). -/
def backupInitResult : Json :=
  .obj [("protocolVersion", .str "2024-11-05"),
        ("capabilities", .obj [("tools", .obj [])]),
        ("serverInfo", .obj [("name", .str "xjg-server"),
                             ("version", .str "1.0.0")])]

/-- The params payload of the tools/declare notification in the backup
variant, xjg_backup.py lines 12-29: only the echo tool. -/
def backupDeclarationParams : Json :=
  .obj [("tools", .obj [("echo",
    .obj [("description", .str "Echo back text"),
          ("input_schema",
           .obj [("type", .str "object"),
                 ("properties", .obj [("message", .obj [("type", .str "string")])]),
                 ("required", .arr [.str "message"])])])])]

/-- The tools/call dispatch of the backup variant, xjg_backup.py lines
106-124: only echo is registered. -/
def backupToolDispatch (init : Bool) (i : Json) (pf : List (String × Json)) :
    Except PyError (Bool × List RpcOut × List Effect) :=
  match lookupField pf "name" with
  | some (.str n) =>
      if n = "echo" then
        match (lookupField pf "arguments").getD (.obj []) with
        | .obj af => echoRun init i af
        | _ => .error .attributeError
      else .ok (init, [RpcOut.err i (-32601) ("Unknown tool: " ++ n)], [])
  | nv => .ok (init, [RpcOut.err i (-32601) ("Unknown tool: " ++ pyStrOpt nv)], [])

/-- Handling of one decoded request dict in the backup variant,
xjg_backup.py lines 73-144: the dispatch recognizes only initialize and
tools/call — there is NO tools/list branch, so an id-carrying
tools/list request falls to the else branch (lines 129-142) and is
answered with the Unknown method error. -/
def handleObjBackup (init : Bool) (fs : List (String × Json)) :
    Except PyError (Bool × List RpcOut × List Effect) :=
  match lookupField fs "method" with
  | some (.str m) =>
      if m = "initialize" then
        .ok (true,
          ((normId (lookupField fs "id")).elim []
            (fun i => [RpcOut.result i backupInitResult])) ++
            [RpcOut.notif "tools/declare" backupDeclarationParams],
          [])
      else if m = "tools/call" then
        match normId (lookupField fs "id") with
        | some i =>
            match (lookupField fs "params").getD (.obj []) with
            | .obj pf => backupToolDispatch init i pf
            | _ => .error .attributeError
        | none => .ok (init, [], [])
      else
        match normId (lookupField fs "id") with
        | some i => .ok (init, [RpcOut.err i (-32601) ("Unknown method: " ++ m)], [])
        | none => .ok (init, [], [])
  | mv =>
      match normId (lookupField fs "id") with
      | some i => .ok (init, [RpcOut.err i (-32601) ("Unknown method: " ++ pyStrOpt mv)], [])
      | none => .ok (init, [], [])

/-- Handling of one decoded JSON value in the backup variant,
xjg_backup.py line 72 onward: non-dicts raise AttributeError as in the
other variants. -/
def handleValueBackup (init : Bool) : Json →
    Except PyError (Bool × List RpcOut × List Effect)
  | .obj fs => handleObjBackup init fs
  | _ => .error .attributeError

/-- One input line as seen after `line.strip()`: blank, undecodable
(json.loads raises JSONDecodeError), or decoding to a JSON value. -/
inductive Line where
  | blank
  | malformed
  | value (j : Json)

/-- How the main loop ends once the (finite) input is consumed or a fault
occurs: `exited` is the break on end-of-stream before initialization,
`idles` is the indefinite sleep loop after initialization (the process
stays alive until a signal), `crashed` is an exception that escaped the
inner handlers, reached the outer handler and ended the server. -/
inductive LoopExit where
  | exited
  | idles
  | crashed
deriving DecidableEq

/-- Observable outcome of a run of the main loop. -/
structure RunResult where
  finalInit : Bool
  outputs : List RpcOut
  effects : List Effect
  exit : LoopExit

/-- The main loop of xjg.py lines 82-310 over a finite input stream
followed by end-of-stream.  Blank lines are skipped; a JSONDecodeError
is caught and the loop continues (line 305); any other exception is
caught by neither inner handler and ends the server via the outer
handler (lines 314-317), leaving the remaining lines unread. -/
def runLoop (env : String → Fetch) : Bool → List Line → RunResult
  | inited, [] =>
      if inited then ⟨true, [], [], .idles⟩ else ⟨false, [], [], .exited⟩
  | inited, .blank :: rest => runLoop env inited rest
  | inited, .malformed :: rest => runLoop env inited rest
  | inited, .value j :: rest =>
      match handleValue env inited j with
      | .ok (init2, outs, effs) =>
          let r := runLoop env init2 rest
          ⟨r.finalInit, outs ++ r.outputs, effs ++ r.effects, r.exit⟩
      | .error _ => ⟨inited, [], [], .crashed⟩

/-- Ids of the responses in an output list: notifications carry no id and
are not responses. -/
def respIds : List RpcOut → List Json
  | [] => []
  | .result i _ :: rest => i :: respIds rest
  | .err i _ _ :: rest => i :: respIds rest
  | .notif _ _ :: rest => respIds rest

/-- The id a request carries, after the None-collapse of JSON null. -/
def reqIdOf : Json → Option Json
  | .obj fs => normId (lookupField fs "id")
  | _ => none

/-- Whether a decoded value is a JSON object (a Python dict). -/
def isObjB : Json → Bool
  | .obj _ => true
  | _ => false

/-- Whether a `params.get("name")` value names a registered tool. -/
def knownToolName : Option Json → Bool
  | some (.str n) => n = "echo" || n = "reverse" || n = "word_count" || n = "weather"
  | _ => false

/-- Whether a `req.get("method")` value is one of the recognized methods. -/
def knownMethod : Option Json → Bool
  | some (.str m) => m = "initialize" || m = "tools/list" || m = "tools/call"
  | _ => false

/-- Whether the text argument (default "") of an arguments dict is a
string. -/
def textIsStr (af : List (String × Json)) : Bool :=
  match (lookupField af "text").getD (.str "") with
  | .str _ => true
  | _ => false

/-- Well-typedness of the tools/call arguments for a registered tool name:
the arguments value (default {}) is a dict, and for reverse and
word_count the text argument (default "") is a string. -/
def argsWellTyped (pf : List (String × Json)) (n : String) : Bool :=
  match (lookupField pf "arguments").getD (.obj []) with
  | .obj af =>
      if n = "reverse" || n = "word_count" then textIsStr af
      else true
  | _ => false

/-- A fixed fetch environment for concrete runs: every city fetch returns
a non-200 status. -/
def env0 : String → Fetch := fun _ => Fetch.badStatus

/-- An id-carrying request dict whose params and arguments are well-formed
dicts but whose reverse text argument is a number. -/
def c1BadFs : List (String × Json) :=
  [("jsonrpc", .str "2.0"), ("id", .num 1), ("method", .str "tools/call"),
   ("params", .obj [("name", .str "reverse"), ("arguments", .obj [("text", .num 5)])])]

/-- A well-formed echo call carrying id 6. -/
def c1EchoFs : List (String × Json) :=
  [("jsonrpc", .str "2.0"), ("id", .num 6), ("method", .str "tools/call"),
   ("params", .obj [("name", .str "echo"), ("arguments", .obj [("message", .str "hi")])])]

/-- A weather call without an id (a notification). -/
def c3Fs : List (String × Json) :=
  [("jsonrpc", .str "2.0"), ("method", .str "tools/call"),
   ("params", .obj [("name", .str "weather"), ("arguments", .obj [("city", .str "Denver")])])]

/-- An initialize request carrying id 1. -/
def c4InitFs : List (String × Json) :=
  [("jsonrpc", .str "2.0"), ("id", .num 1), ("method", .str "initialize")]

/-- A tools/list request carrying id 2. -/
def c5ListFs : List (String × Json) :=
  [("jsonrpc", .str "2.0"), ("id", .num 2), ("method", .str "tools/list")]

/-- A weather call carrying id 5. -/
def c6WeatherFs : List (String × Json) :=
  [("jsonrpc", .str "2.0"), ("id", .num 5), ("method", .str "tools/call"),
   ("params", .obj [("name", .str "weather"), ("arguments", .obj [("city", .str "Denver")])])]

/-- An id-carrying word_count call whose text argument is a number. -/
def c6BadFs : List (String × Json) :=
  [("jsonrpc", .str "2.0"), ("id", .num 7), ("method", .str "tools/call"),
   ("params", .obj [("name", .str "word_count"), ("arguments", .obj [("text", .num 5)])])]

/-- A tools/call request carrying id 3 naming an unregistered tool. -/
def c7ToolFs : List (String × Json) :=
  [("jsonrpc", .str "2.0"), ("id", .num 3), ("method", .str "tools/call"),
   ("params", .obj [("name", .str "bogus")])]

/-- A request carrying id 4 with an unrecognized method. -/
def c7MethodFs : List (String × Json) :=
  [("jsonrpc", .str "2.0"), ("id", .num 4), ("method", .str "shutdown")]

/-- Handling any decoded non-dict value raises AttributeError at the first
`req.get` (xjg.py line 105). -/
theorem handleValue_nonObj (env : String → Fetch) (init : Bool) (j : Json)
    (h : isObjB j = false) : handleValue env init j = .error .attributeError := by
  cases j <;> simp_all [isObjB, handleValue]

/-- Claim C2 (counterexample): on the literal string "a b  c" the server
computes characters-without-spaces as 3 (six characters minus three
spaces), not 4 as the claim states. -/
theorem wordCount_charsNoSpaces_cex : wcCharsNoSpaces "a b  c" ≠ 4 := by decide

/-- Claim C2 (amended): word_count on "" reports words=0, lines=0,
chars=0; on "a b  c" (two spaces between b and c) it reports words=3,
chars=6 and chars_no_spaces=3, with words the whitespace-delimited
tokens, chars the total length and chars_no_spaces the length after
removing spaces. -/
theorem wordCount_literal_cases :
    wcWords "" = 0 ∧ wcLines "" = 0 ∧ wcChars "" = 0 ∧
    wcWords "a b  c" = 3 ∧ wcChars "a b  c" = 6 ∧ wcCharsNoSpaces "a b  c" = 3 := by
  decide

/-- Claim C3 (counterexample): a tools/call notification (no id) naming
the weather tool with a well-formed city argument produces no output and
no fetch effect at all — the handler is not executed, contradicting the
claim that its side effects still occur. -/
theorem noId_weatherCall_no_fetch_cex :
    (runLoop env0 true [Line.value (Json.obj c3Fs)]).effects = [] ∧
    (runLoop env0 true [Line.value (Json.obj c3Fs)]).outputs = [] ∧
    (runLoop env0 true [Line.value (Json.obj c3Fs)]).exit = LoopExit.idles :=
  ⟨rfl, rfl, rfl⟩

/-- Claim C3 (amended): for every tools/call message without an id, no
response is emitted and the named tool's handler is not executed — the
whole branch is skipped, so no side effects (in particular no weather
fetch) occur. -/
theorem noId_toolsCall_noop (env : String → Fetch) (init : Bool)
    (fs : List (String × Json))
    (hm : lookupField fs "method" = some (Json.str "tools/call"))
    (hid : normId (lookupField fs "id") = none) :
    handleValue env init (Json.obj fs) = Except.ok (init, [], []) := by
  show handleObj env init fs = _
  unfold handleObj
  rw [hm, hid]
  rfl

/-- Claim C3 (witness): the amended claim at the concrete no-id weather
call. -/
theorem noId_toolsCall_noop_witness :
    handleValue env0 true (Json.obj c3Fs) = Except.ok (true, [], []) :=
  noId_toolsCall_noop env0 true c3Fs rfl rfl

/-- Claim C4: every initialize message, with or without an id, sets the
initialized flag and emits exactly one tools/declare notification; when
an id is present the initialize result precedes the notification in the
output order. -/
theorem init_request_declares_tools (env : String → Fetch) (init : Bool)
    (fs : List (String × Json))
    (hm : lookupField fs "method" = some (Json.str "initialize")) :
    handleValue env init (Json.obj fs) =
      Except.ok (true,
        ((normId (lookupField fs "id")).elim []
          (fun i => [RpcOut.result i initResult])) ++
          [RpcOut.notif "tools/declare" declarationParams],
        []) := by
  show handleObj env init fs = _
  unfold handleObj
  rw [hm]
  rfl

/-- Claim C4 (witness): the concrete initialize request with id 1 yields
the result response followed by the tools/declare notification, and the
flag flips to true. -/
theorem init_request_declares_tools_witness :
    handleValue env0 false (Json.obj c4InitFs) =
      Except.ok (true,
        [RpcOut.result (Json.num 1) initResult,
         RpcOut.notif "tools/declare" declarationParams], []) :=
  init_request_declares_tools env0 false c4InitFs rfl

/-- Claim C5 (counterexample): in the backup variant, the concrete
tools/list request with id 2 is answered with an Unknown method error
of code -32601 — tools/list is NOT a recognized method there,
contradicting the claim for its cited xjg_backup.py dispatch. -/
theorem toolsList_backup_unknown_method_cex :
    handleValueBackup false (Json.obj c5ListFs) =
      Except.ok (false,
        [RpcOut.err (Json.num 2) (-32601) "Unknown method: tools/list"], []) := rfl

/-- Claim C5 (amended): in xjg.py, a tools/list request carrying an id
is answered with the result holding the ordered tool descriptors (name,
description, inputSchema) derived from the registry, in the order echo,
reverse, word_count, weather, and never with an unknown-method error;
in the backup variant xjg_backup.py the dispatch has no tools/list
branch, so an id-carrying tools/list is answered with error -32601
"Unknown method: tools/list". -/
theorem toolsList_lists_registry :
    (∀ (env : String → Fetch) (init : Bool) (fs : List (String × Json)) (i : Json),
      lookupField fs "method" = some (Json.str "tools/list") →
      normId (lookupField fs "id") = some i →
      handleValue env init (Json.obj fs) =
        Except.ok (init, [RpcOut.result i toolsListResult], []) ∧
      toolsListResult = Json.obj [("tools", Json.arr (toolsRegistry.map toolDescriptor))] ∧
      toolsRegistry.map ToolSpec.name = ["echo", "reverse", "word_count", "weather"]) ∧
    (∀ (init : Bool) (fs : List (String × Json)) (i : Json),
      lookupField fs "method" = some (Json.str "tools/list") →
      normId (lookupField fs "id") = some i →
      handleValueBackup init (Json.obj fs) =
        Except.ok (init,
          [RpcOut.err i (-32601) "Unknown method: tools/list"], [])) := by
  constructor
  · intro env init fs i hm hid
    refine ⟨?_, rfl, rfl⟩
    show handleObj env init fs = _
    unfold handleObj
    rw [hm, hid]
    rfl
  · intro init fs i hm hid
    show handleObjBackup init fs = _
    unfold handleObjBackup
    rw [hm, hid]
    rfl

/-- Claim C5 (witness): the concrete tools/list request with id 2,
answered with the registry listing by xjg.py and with the Unknown
method error by the backup variant. -/
theorem toolsList_lists_registry_witness :
    (handleValue env0 false (Json.obj c5ListFs) =
       Except.ok (false, [RpcOut.result (Json.num 2) toolsListResult], []) ∧
     toolsListResult = Json.obj [("tools", Json.arr (toolsRegistry.map toolDescriptor))] ∧
     toolsRegistry.map ToolSpec.name = ["echo", "reverse", "word_count", "weather"]) ∧
    handleValueBackup false (Json.obj c5ListFs) =
      Except.ok (false,
        [RpcOut.err (Json.num 2) (-32601) "Unknown method: tools/list"], []) :=
  ⟨toolsList_lists_registry.1 env0 false c5ListFs (Json.num 2) rfl rfl,
   toolsList_lists_registry.2 false c5ListFs (Json.num 2) rfl rfl⟩

/-- Claim C9: an input line that is not valid JSON is skipped: the run
over the remaining lines is unchanged — no response for the bad line, no
termination, and the next lines are processed exactly as they would be
without it. -/
theorem malformed_line_skipped (env : String → Fetch) (init : Bool)
    (rest : List Line) :
    runLoop env init (Line.malformed :: rest) = runLoop env init rest := rfl

/-- Claim C10: a line of valid JSON whose top-level value is not an object
makes the attribute access raise an exception no inner handler catches:
the loop ends through the outer handler with no response emitted and the
remaining lines unprocessed. -/
theorem non_object_line_crashes (env : String → Fetch) (init : Bool)
    (j : Json) (rest : List Line) (h : isObjB j = false) :
    runLoop env init (Line.value j :: rest) = ⟨init, [], [], LoopExit.crashed⟩ := by
  simp [runLoop, handleValue_nonObj env init j h]

/-- Claim C10 (witness): a top-level JSON array ends the run with no
output, leaving a following valid initialize line unprocessed. -/
theorem non_object_line_crashes_witness :
    runLoop env0 false [Line.value (Json.arr []), Line.value (Json.obj c4InitFs)] =
      ⟨false, [], [], LoopExit.crashed⟩ :=
  non_object_line_crashes env0 false (Json.arr []) [Line.value (Json.obj c4InitFs)] rfl

/-- Claim C7: an id-carrying tools/call naming an unregistered tool is
answered with error code -32601 whose message carries the tool name; an
id-carrying request with an unrecognized method is answered with error
code -32601 whose message carries the method name. -/
theorem unknown_tool_and_method_errors :
    (∀ (env : String → Fetch) (init : Bool) (fs : List (String × Json))
       (i : Json) (pf : List (String × Json)),
      lookupField fs "method" = some (Json.str "tools/call") →
      normId (lookupField fs "id") = some i →
      (lookupField fs "params").getD (Json.obj []) = Json.obj pf →
      knownToolName (lookupField pf "name") = false →
      handleValue env init (Json.obj fs) =
        Except.ok (init,
          [RpcOut.err i (-32601) ("Unknown tool: " ++ pyStrOpt (lookupField pf "name"))],
          [])) ∧
    (∀ (env : String → Fetch) (init : Bool) (fs : List (String × Json)) (i : Json),
      knownMethod (lookupField fs "method") = false →
      normId (lookupField fs "id") = some i →
      handleValue env init (Json.obj fs) =
        Except.ok (init,
          [RpcOut.err i (-32601) ("Unknown method: " ++ pyStrOpt (lookupField fs "method"))],
          [])) := by
  constructor
  · intro env init fs i pf hm hid hp hn
    have hd : handleValue env init (Json.obj fs) = toolDispatch env init i pf := by
      show handleObj env init fs = _
      unfold handleObj
      rw [hm, hid, hp]
      rfl
    rw [hd]
    unfold toolDispatch
    cases hname : lookupField pf "name" with
    | none => rfl
    | some j =>
      rw [hname] at hn
      cases j with
      | str n =>
        simp only [knownToolName, Bool.or_eq_false_iff, decide_eq_false_iff_not] at hn
        obtain ⟨⟨⟨h1, h2⟩, h3⟩, h4⟩ := hn
        simp [h1, h2, h3, h4, pyStrOpt, pyStr]
      | null => rfl
      | bool b => cases b <;> rfl
      | num k => rfl
      | arr xs => rfl
      | obj ofs => rfl
  · intro env init fs i hkm hid
    show handleObj env init fs = _
    unfold handleObj
    cases hmv : lookupField fs "method" with
    | none => rw [hid]
    | some j =>
      rw [hmv] at hkm
      cases j with
      | str m =>
        simp only [knownMethod, Bool.or_eq_false_iff, decide_eq_false_iff_not] at hkm
        obtain ⟨⟨h1, h2⟩, h3⟩ := hkm
        rw [hid]
        simp [h1, h2, h3, pyStrOpt, pyStr]
      | null => rw [hid]
      | bool b => cases b <;> rw [hid]
      | num k => rw [hid]
      | arr xs => rw [hid]
      | obj ofs => rw [hid]

/-- Claim C7 (witness): concrete unknown-tool and unknown-method requests. -/
theorem unknown_tool_and_method_errors_witness :
    handleValue env0 false (Json.obj c7ToolFs) =
      Except.ok (false, [RpcOut.err (Json.num 3) (-32601) "Unknown tool: bogus"], []) ∧
    handleValue env0 false (Json.obj c7MethodFs) =
      Except.ok (false, [RpcOut.err (Json.num 4) (-32601) "Unknown method: shutdown"], []) :=
  ⟨unknown_tool_and_method_errors.1 env0 false c7ToolFs (Json.num 3)
      [("name", Json.str "bogus")] rfl rfl rfl rfl,
   unknown_tool_and_method_errors.2 env0 false c7MethodFs (Json.num 4) rfl rfl⟩

/-- Claim C8: whenever the loop reaches end-of-stream (it did not crash),
it idles exactly when the session is initialized and exits exactly when
it is not. -/
theorem eof_exit_behavior (env : String → Fetch) (init : Bool) (ls : List Line)
    (h : (runLoop env init ls).exit ≠ LoopExit.crashed) :
    ((runLoop env init ls).exit = LoopExit.idles ↔ (runLoop env init ls).finalInit = true) ∧
    ((runLoop env init ls).exit = LoopExit.exited ↔ (runLoop env init ls).finalInit = false) := by
  induction ls generalizing init with
  | nil => cases init <;> simp [runLoop]
  | cons l rest ih =>
    cases l with
    | blank => exact ih init h
    | malformed => exact ih init h
    | value j =>
      cases hv : handleValue env init j with
      | ok t =>
        obtain ⟨i2, outs, effs⟩ := t
        have e1 : runLoop env init (Line.value j :: rest) =
            ⟨(runLoop env i2 rest).finalInit, outs ++ (runLoop env i2 rest).outputs,
             effs ++ (runLoop env i2 rest).effects, (runLoop env i2 rest).exit⟩ := by
          simp [runLoop, hv]
        rw [e1] at h ⊢
        exact ih i2 h
      | error e =>
        rw [runLoop, hv] at h
        simp at h

/-- Claim C8 (witness): end-of-stream with no initialize processed exits
the process. -/
theorem eof_exit_behavior_witness :
    ((runLoop env0 false []).exit = LoopExit.idles ↔ (runLoop env0 false []).finalInit = true) ∧
    ((runLoop env0 false []).exit = LoopExit.exited ↔ (runLoop env0 false []).finalInit = false) :=
  eof_exit_behavior env0 false [] (by decide)

/-- Every successful tools/call dispatch for an id-carrying request emits
exactly one response and it carries the request id. -/
theorem toolDispatch_respIds (env : String → Fetch) (init : Bool) (i : Json)
    (pf : List (String × Json)) (init2 : Bool) (outs : List RpcOut)
    (effs : List Effect)
    (h : toolDispatch env init i pf = Except.ok (init2, outs, effs)) :
    respIds outs = [i] := by
  unfold toolDispatch at h
  repeat' split at h
  all_goals try (unfold echoRun at h)
  all_goals try (unfold reverseRun at h)
  all_goals try (unfold wordCountRun at h)
  all_goals try (unfold weatherRun at h)
  all_goals repeat' split at h
  all_goals
    try (simp only [Except.ok.injEq, Prod.mk.injEq] at h
         obtain ⟨h1, houts, h3⟩ := h
         subst houts)
  all_goals simp_all [respIds]

/-- Claim C1 (amended): for every decoded request object whose handling
completes without an uncaught fault, an id-carrying request gets exactly
one response and its id is the request id, and an id-less message gets
zero responses; notifications carry no id and are not counted. -/
theorem respIds_eq_reqId (env : String → Fetch) (init : Bool) (req : Json)
    (init2 : Bool) (outs : List RpcOut) (effs : List Effect)
    (h : handleValue env init req = Except.ok (init2, outs, effs)) :
    respIds outs = (reqIdOf req).toList := by
  cases req with
  | obj fs =>
    simp only [reqIdOf]
    have h2 : handleObj env init fs = Except.ok (init2, outs, effs) := h
    clear h
    unfold handleObj at h2
    repeat' split at h2
    all_goals
      first
        | exact toolDispatch_respIds _ _ _ _ _ _ _ h2
        | (simp only [Except.ok.injEq, Prod.mk.injEq] at h2
           obtain ⟨ha, houts, hc⟩ := h2
           subst houts
           first
             | (simp_all [respIds]; done)
             | (cases hninit : normId (lookupField fs "id") <;> simp_all [respIds]))
        | simp_all [respIds]
    exact toolDispatch_respIds _ _ _ _ _ _ _ h2
  | null => exact absurd h (by simp [handleValue])
  | bool b => exact absurd h (by simp [handleValue])
  | num n => exact absurd h (by simp [handleValue])
  | str s => exact absurd h (by simp [handleValue])
  | arr xs => exact absurd h (by simp [handleValue])

/-- Claim C1 (counterexample): a request object carrying id 1 (method
tools/call, tool reverse, params and arguments well-formed dicts, text a
number) receives zero responses — the handler raises an uncaught
TypeError and the loop crashes before printing. -/
theorem idRequest_crash_cex :
    reqIdOf (Json.obj c1BadFs) = some (Json.num 1) ∧
    (runLoop env0 false [Line.value (Json.obj c1BadFs)]).outputs = [] ∧
    (runLoop env0 false [Line.value (Json.obj c1BadFs)]).exit = LoopExit.crashed :=
  ⟨rfl, rfl, rfl⟩

/-- Claim C1 (witness): the concrete echo request with id 6 is answered
by exactly one response carrying id 6. -/
theorem respIds_eq_reqId_witness :
    respIds [RpcOut.result (Json.num 6) (contentText "Echo: hi")] =
      (reqIdOf (Json.obj c1EchoFs)).toList :=
  respIds_eq_reqId env0 false (Json.obj c1EchoFs) false
    [RpcOut.result (Json.num 6) (contentText "Echo: hi")] [] rfl

/-- Claim C6 (counterexample): two id-carrying tools/call requests naming
registered tools raise uncaught failures out of the dispatcher, against
the claim.  In xjg.py, word_count with a numeric text argument raises
AttributeError and crashes the loop; in xavier.py, the weather branch
with the numeric city 5 raises AttributeError at the pre-try
`city_arg.strip()` even though params and arguments are well-formed
dicts (argsWellTyped holds). -/
theorem registered_tool_call_crash_cex :
    (handleValue env0 false (Json.obj c6BadFs) = Except.error PyError.attributeError ∧
     (runLoop env0 false [Line.value (Json.obj c6BadFs)]).exit = LoopExit.crashed) ∧
    (xavierWeatherRun env0 false (Json.num 8) [("city", Json.num 5)] =
       Except.error PyError.attributeError ∧
     argsWellTyped [("name", Json.str "weather"),
                    ("arguments", Json.obj [("city", Json.num 5)])] "weather" = true) :=
  ⟨⟨rfl, rfl⟩, ⟨rfl, rfl⟩⟩

/-- A xavier.py city argument that is absent, falsy or a string never
faults the pre-try city computation. -/
theorem xavierCityOf_ok (af : List (String × Json))
    (hok : cityWellTyped af = true) : ∃ c, xavierCityOf af = Except.ok c := by
  unfold cityWellTyped at hok
  unfold xavierCityOf
  cases hcv : lookupField af "city" with
  | none => exact ⟨"Frisco, Colorado", rfl⟩
  | some v =>
    rw [hcv] at hok
    cases v with
    | str s => exact ⟨if pyStrip s = "" then "Frisco, Colorado" else pyStrip s, rfl⟩
    | null => exact ⟨"Frisco, Colorado", rfl⟩
    | bool b =>
      cases b with
      | false => exact ⟨"Frisco, Colorado", rfl⟩
      | true => exact absurd (hok : (false : Bool) = true) (by decide)
    | num k =>
      have hpt : (!pyTruthy (Json.num k)) = true := hok
      have hpt2 : pyTruthy (Json.num k) = false := by
        cases hb : pyTruthy (Json.num k) with
        | false => rfl
        | true => rw [hb] at hpt; exact absurd hpt (by decide)
      refine ⟨"Frisco, Colorado", ?_⟩
      show (if pyTruthy (Json.num k) = true then Except.error PyError.attributeError
            else Except.ok "Frisco, Colorado") = Except.ok "Frisco, Colorado"
      simp [hpt2]
    | arr xs =>
      have hpt : (!pyTruthy (Json.arr xs)) = true := hok
      have hpt2 : pyTruthy (Json.arr xs) = false := by
        cases hb : pyTruthy (Json.arr xs) with
        | false => rfl
        | true => rw [hb] at hpt; exact absurd hpt (by decide)
      refine ⟨"Frisco, Colorado", ?_⟩
      show (if pyTruthy (Json.arr xs) = true then Except.error PyError.attributeError
            else Except.ok "Frisco, Colorado") = Except.ok "Frisco, Colorado"
      simp [hpt2]
    | obj ofs =>
      have hpt : (!pyTruthy (Json.obj ofs)) = true := hok
      have hpt2 : pyTruthy (Json.obj ofs) = false := by
        cases hb : pyTruthy (Json.obj ofs) with
        | false => rfl
        | true => rw [hb] at hpt; exact absurd hpt (by decide)
      refine ⟨"Frisco, Colorado", ?_⟩
      show (if pyTruthy (Json.obj ofs) = true then Except.error PyError.attributeError
            else Except.ok "Frisco, Colorado") = Except.ok "Frisco, Colorado"
      simp [hpt2]

/-- Claim C6 (amended): for an id-carrying tools/call naming a registered
tool whose params and arguments are dicts, whose text argument (for
reverse and word_count) is a string, and — in xavier.py's weather
branch, where `city_arg.strip()` runs before the try — whose city
argument is absent, falsy or a string: every internal handler fault,
i.e. every fetch outcome of the weather tool (network error, bad
status, bad JSON, missing fields), is converted into a successful
result carrying a text payload; no JSON-RPC error object and no
uncaught failure is produced.  First conjunct: xjg.py, all four tools.
Second conjunct: xavier.py's weather branch, for every fetch
environment. -/
theorem registered_tool_call_result :
    (∀ (env : String → Fetch) (init : Bool) (fs : List (String × Json))
       (i : Json) (pf : List (String × Json)) (n : String),
      lookupField fs "method" = some (Json.str "tools/call") →
      normId (lookupField fs "id") = some i →
      (lookupField fs "params").getD (Json.obj []) = Json.obj pf →
      lookupField pf "name" = some (Json.str n) →
      n ∈ toolsRegistry.map ToolSpec.name →
      argsWellTyped pf n = true →
      ∃ txt effs, handleValue env init (Json.obj fs) =
        Except.ok (init, [RpcOut.result i (contentText txt)], effs)) ∧
    (∀ (env : String → Fetch) (init : Bool) (i : Json) (af : List (String × Json)),
      cityWellTyped af = true →
      ∃ txt city, xavierWeatherRun env init i af =
        Except.ok (init, [RpcOut.result i (contentText txt)], [Effect.fetch city])) := by
  constructor
  · intro env init fs i pf n hm hid hp hn hreg hargs
    have hd : handleValue env init (Json.obj fs) = toolDispatch env init i pf := by
      show handleObj env init fs = _
      unfold handleObj
      rw [hm, hid, hp]
      rfl
    rw [hd]
    have hnames : n = "echo" ∨ n = "reverse" ∨ n = "word_count" ∨ n = "weather" := by
      simpa [toolsRegistry] using hreg
    unfold argsWellTyped at hargs
    cases ha : (lookupField pf "arguments").getD (Json.obj []) with
    | obj af =>
      rw [ha] at hargs
      rcases hnames with rfl | rfl | rfl | rfl
      · have hda : toolDispatch env init i pf = echoRun init i af := by
          unfold toolDispatch
          rw [hn, ha]
          rfl
        rw [hda]
        exact ⟨"Echo: " ++ pyStr ((lookupField af "message").getD (Json.str "")), [], rfl⟩
      · have hargs2 : textIsStr af = true := hargs
        have hda : toolDispatch env init i pf = reverseRun init i af := by
          unfold toolDispatch
          rw [hn, ha]
          rfl
        rw [hda]
        unfold textIsStr at hargs2
        cases ht : (lookupField af "text").getD (Json.str "") with
        | str t =>
          refine ⟨"Reversed: " ++ pyStr (Json.str (String.mk t.data.reverse)), [], ?_⟩
          unfold reverseRun
          rw [ht]
          rfl
        | null => rw [ht] at hargs2; simp at hargs2
        | bool b => rw [ht] at hargs2; simp at hargs2
        | num k => rw [ht] at hargs2; simp at hargs2
        | arr xs => rw [ht] at hargs2; simp at hargs2
        | obj ofs => rw [ht] at hargs2; simp at hargs2
      · have hargs2 : textIsStr af = true := hargs
        have hda : toolDispatch env init i pf = wordCountRun init i af := by
          unfold toolDispatch
          rw [hn, ha]
          rfl
        rw [hda]
        unfold textIsStr at hargs2
        cases ht : (lookupField af "text").getD (Json.str "") with
        | str t =>
          refine ⟨wordCountText t, [], ?_⟩
          unfold wordCountRun
          rw [ht]
        | null => rw [ht] at hargs2; simp at hargs2
        | bool b => rw [ht] at hargs2; simp at hargs2
        | num k => rw [ht] at hargs2; simp at hargs2
        | arr xs => rw [ht] at hargs2; simp at hargs2
        | obj ofs => rw [ht] at hargs2; simp at hargs2
      · have hda : toolDispatch env init i pf = weatherRun env init i af := by
          unfold toolDispatch
          rw [hn, ha]
          rfl
        rw [hda]
        exact ⟨(weatherCall env ((lookupField af "city").getD (Json.str "Frisco, Colorado"))).1,
               (weatherCall env ((lookupField af "city").getD (Json.str "Frisco, Colorado"))).2, rfl⟩
    | null => rw [ha] at hargs; simp at hargs
    | bool b => rw [ha] at hargs; simp at hargs
    | num k => rw [ha] at hargs; simp at hargs
    | arr xs => rw [ha] at hargs; simp at hargs
    | str s => rw [ha] at hargs; simp at hargs

  · intro env init i af hok
    obtain ⟨c, hc⟩ := xavierCityOf_ok af hok
    refine ⟨xavierWeatherText env c, c, ?_⟩
    unfold xavierWeatherRun
    rw [hc]

/-- Claim C6 (witness): the concrete weather call with id 5 and city
Denver, under the all-fetches-fail environment, still yields a
successful text result in xjg.py, and xavier.py's weather branch with
the same city and id 9 yields a successful text result with the fetch
performed. -/
theorem registered_tool_call_result_witness :
    (∃ txt effs, handleValue env0 false (Json.obj c6WeatherFs) =
       Except.ok (false, [RpcOut.result (Json.num 5) (contentText txt)], effs)) ∧
    (∃ txt city, xavierWeatherRun env0 false (Json.num 9) [("city", Json.str "Denver")] =
       Except.ok (false, [RpcOut.result (Json.num 9) (contentText txt)], [Effect.fetch city])) :=
  ⟨registered_tool_call_result.1 env0 false c6WeatherFs (Json.num 5)
      [("name", Json.str "weather"), ("arguments", Json.obj [("city", Json.str "Denver")])]
      "weather" rfl rfl rfl rfl (by decide) rfl,
   registered_tool_call_result.2 env0 false (Json.num 9) [("city", Json.str "Denver")] rfl⟩

end MCPServer
